import Mathlib

/-!
Verification of the AgriGuard pipeline (weather-based agronomic advisories).

Shallow embedding of the Python sources:
* `src/agriguard/weather.py`   — forecast metric derivation,
* `src/agriguard/advice.py`    — model-based advisory and reply parsing,
* `src/agriguard/geocode.py`   — place-name resolution,
* `src/agriguard/agriguard.py` — the composing `AgriGuard` class,
* `src/outbound/outbound.py`   — bulk SMS delivery.

Numeric series are embedded as exact rationals (`ℚ`); network calls and
provider replies are exogenous inputs to the embedded functions — a
caught exception or malformed payload is a `none` / `Except.error`
input, matching exactly the distinctions the Python code itself makes.
-/

set_option autoImplicit false

/-! ## Definitions -/

/-! ### weather.py — raw series and metric derivation -/

/-- The hourly columns of a successful 1-day forecast response
(`weather.py`, the `hourly_data` dict): `temperature_2m` is always
read (variable 0); soil moisture (variable 1) and precipitation
(variable 2) are only present when `VariablesLength()` exposes them. -/
structure HourlyData where
  temperature_2m : List ℚ
  soil_moisture_3_to_9cm : Option (List ℚ)
  precipitation : Option (List ℚ)

/-- Embedding of `pandas.Series.mean`: sum of the samples divided by
their count. -/
def seriesMean (l : List ℚ) : ℚ := l.sum / l.length

/-- Embedding of `pandas.Series.min` on a nonempty series (the forecast
response always carries 24 hourly samples, so the empty case does not
arise). -/
def seriesMin (l : List ℚ) : ℚ :=
  match l with
  | [] => 0
  | x :: xs => xs.foldl min x

/-- Embedding of `pandas.Series.max` on a nonempty series. -/
def seriesMax (l : List ℚ) : ℚ :=
  match l with
  | [] => 0
  | x :: xs => xs.foldl max x

/-- Embedding of `_rain_next_hour` (`weather.py` lines 69–89).  The
argument is the outcome of the independent sub-hourly fetch: `none`
stands for any failure the function swallows (exception, missing
`minutely_15` key, malformed payload — all reach `return None`),
`some p` for a successfully parsed `minutely_15.precipitation` array.
The code sums `precip[:4]` only when `precip and len(precip) >= 4`; an
empty list is falsy and in any case shorter than 4, so the guard
reduces to the length test. -/
def rain_next_hour (precip : Option (List ℚ)) : Option ℚ :=
  match precip with
  | none => none
  | some p => if 4 ≤ p.length then some ((p.take 4).sum) else none

/-- The local `min_soil_raw` of `fetch_forecast_metrics`
(`weather.py` lines 48–52): the minimum of the soil-moisture series
when the column is present, `None` when it is absent. -/
def min_soil_raw (data : HourlyData) : Option ℚ :=
  data.soil_moisture_3_to_9cm.map seriesMin

/-- The metrics dict returned by `fetch_forecast_metrics`
(`weather.py` lines 57–64). -/
structure ForecastMetrics where
  avg_temp : ℚ
  min_temp : ℚ
  max_temp : ℚ
  total_rain : ℚ
  min_soil : ℚ
  rain_next_hour_mm : Option ℚ
deriving DecidableEq

/-- The success path of `fetch_forecast_metrics` (`weather.py` lines
24–64) as a function of the parsed hourly columns and of the sub-hourly
fetch outcome.  `total_rain` is `0.0` when the precipitation column is
absent; `min_soil` is `min_soil_raw` with `None` replaced by `0.0`
(the `min_soil_for_prompt` line).  A failure of the primary fetch
itself (any exception, caught at lines 65–66) is modelled at the call
site as the whole result being `none` — see `get_ai_agri_advice`. -/
def fetch_forecast_metrics (data : HourlyData) (subhourly : Option (List ℚ)) :
    ForecastMetrics where
  avg_temp := seriesMean data.temperature_2m
  min_temp := seriesMin data.temperature_2m
  max_temp := seriesMax data.temperature_2m
  total_rain := (data.precipitation.map List.sum).getD 0
  min_soil := (min_soil_raw data).getD 0
  rain_next_hour_mm := rain_next_hour subhourly

/-! ### advice.py — prompt formatting and model-reply parsing -/

/-- Python `format(value, ".2f")` on the exact values arising here: the
value rounded to hundredths, printed with two fractional digits.
(CPython rounds the shortest decimal of the binary double half-to-even;
on the values this development evaluates — exact hundredths — no
tie-breaking is exercised.) -/
def format2 (q : ℚ) : String :=
  let c : ℤ := round (q * 100)
  let sgn := if c < 0 then "-" else ""
  let n := c.natAbs
  sgn ++ toString (n / 100) ++ "." ++
    (if n % 100 < 10 then "0" ++ toString (n % 100) else toString (n % 100))

/-- The soil-moisture line of the model prompt (`advice.py` line 36):
`- Soil moisture (3–9 cm, 0–1 scale): {metrics["min_soil"]:.2f} (low if <0.2, critical if <0.15)`. -/
def soil_prompt_line (m : ForecastMetrics) : String :=
  "- Soil moisture (3–9 cm, 0–1 scale): " ++ format2 m.min_soil ++
    " (low if <0.2, critical if <0.15)"

/-- The ASCII whitespace Python `str.strip` (and `\s` on these inputs)
recognises. -/
def isPySpace (c : Char) : Bool :=
  c = ' ' || c = '\t' || c = '\n' || c = '\r' || c = '\x0b' || c = '\x0c'

/-- The character class of the bullet-stripping regex
`^[\s\-*•\d.)]+` (`advice.py` line 52): whitespace, dash, asterisk,
bullet glyph, (ASCII) digits, period and the closing parenthesis.
The opening parenthesis is not in the class. -/
def isBulletChar (c : Char) : Bool :=
  isPySpace c || c = '-' || c = '*' || c = '•' || c.isDigit || c = '.' || c = ')'

/-- Remove trailing `isPySpace` characters. -/
def rstripChars (l : List Char) : List Char :=
  (l.reverse.dropWhile isPySpace).reverse

/-- Python `str.strip` on the character list: remove leading and
trailing whitespace. -/
def pyStrip (l : List Char) : List Char :=
  rstripChars (l.dropWhile isPySpace)

/-- Python `str.strip` on strings. -/
def pyStripString (s : String) : String :=
  String.mk (pyStrip s.data)

/-- Embedding of `re.sub(r"^[\s\-*•\d.)]+", "", line).strip()`
(`advice.py` line 52): drop the maximal leading run of bullet-class
characters (`re.sub` with `+` removes the match when there is one and
leaves the line unchanged otherwise, which is exactly `dropWhile`),
then strip surrounding whitespace. -/
def strip_bullet (line : String) : String :=
  String.mk (pyStrip (line.data.dropWhile isBulletChar))

/-- Split a character list at `'\n'`. -/
def splitOnNewline (l : List Char) : List (List Char) :=
  match l with
  | [] => [[]]
  | c :: cs =>
    let r := splitOnNewline cs
    if c = '\n' then [] :: r
    else
      match r with
      | [] => [[c]]
      | h :: t => (c :: h) :: t

/-- Python `str.splitlines` on the already-stripped reply text, modelled
for text whose line breaks are `'\n'` (the other boundary characters
Python also splits on do not occur in the texts considered here; the
empty-segment difference for text ending in a newline is neutralised by
the preceding `strip()` and by the non-blank-line filter that follows). -/
def splitlines (s : String) : List String :=
  (splitOnNewline s.data).map String.mk

/-- The reply-parsing list comprehension of `get_advice`
(`advice.py` lines 51–56):

`lines = [re.sub(r"^[\s\-*•\d.)]+", "", line).strip() for line in text.strip().splitlines() if line.strip()]`
`advice = [line for line in lines if line]`. -/
def parse_reply (text : String) : List String :=
  ((((splitlines (pyStripString text)).filter
      (fun l => pyStripString l ≠ "")).map strip_bullet).filter
    (fun l => l ≠ ""))

/-- Python `os.environ.get("HF_TOKEN") or os.environ.get("HUGGING_FACE_HUB_TOKEN")`
(`advice.py` line 19): the first operand when truthy (present and
non-empty), otherwise the second. -/
def hf_token (hfTok hubTok : Option String) : Option String :=
  match hfTok with
  | some s => if s = "" then hubTok else some s
  | none => hubTok

/-- Python truthiness of the resolved token (`if not token`): falsy when
absent or the empty string. -/
def token_truthy (t : Option String) : Bool :=
  match t with
  | none => false
  | some s => s ≠ ""

/-- Embedding of `get_advice` (`advice.py` lines 9–63) as a function of
the two token environment variables and of the model-call outcome.  The
metrics and location only shape the prompt sent with the request; the
reply is the exogenous `call` argument: `Except.error e` stands for an
exception whose `str` is `e` (raised anywhere in the `try` block),
`.ok none` for a `None` `message.content`, `.ok (some text)` for reply
text.  `if not text` catches both `None` and the empty string. -/
def get_advice (hfTok hubTok : Option String)
    (call : Except String (Option String)) :
    Option (List String) × Option String :=
  if token_truthy (hf_token hfTok hubTok) = false then (none, none)
  else
    match call with
    | .error e => (none, some e)
    | .ok none => (none, some "Model returned empty response")
    | .ok (some text) =>
      if text = "" then (none, some "Model returned empty response")
      else
        if parse_reply text = [] then (none, some "Model returned no parseable advice")
        else (some (parse_reply text), none)

/-! ### geocode.py and agriguard.py -/

/-- Embedding of `geocode` (`geocode.py` lines 6–29).  The argument is
the HTTP outcome: `Except.error` covers a request exception and an
error-flagged response alike (both raise and are caught, returning
`(None, None)`), `.ok` carries the `results` list — possibly empty, in
which case the code raises "No coordinates found" and again returns
`(None, None)`.  Otherwise the first ranked match is returned.  The
`verbose` printing is display-only and not modelled. -/
def geocode (resp : Except String (List (ℚ × ℚ))) : Option ℚ × Option ℚ :=
  match resp with
  | .error _ => (none, none)
  | .ok [] => (none, none)
  | .ok (loc :: _) => (some loc.1, some loc.2)

/-- The coordinate state an `AgriGuard` instance holds after
construction (`self.lat`, `self.lon`). -/
structure AgriGuardState where
  lat : Option ℚ
  lon : Option ℚ
deriving DecidableEq

/-- Embedding of `AgriGuard.__init__` (`agriguard.py` lines 13–30).
With both explicit coordinates the values are stored directly (the
`float()` conversion is the identity on the embedded rationals) and the
geocoding outcome is never consulted; otherwise a truthy `city_name`
is geocoded; otherwise `ValueError` is raised, modelled as
`Except.error`.  The `_display_name` field is presentation-only and not
modelled. -/
def agriguard_init (city_name : Option String) (latitude longitude : Option ℚ)
    (geoResp : Except String (List (ℚ × ℚ))) : Except String AgriGuardState :=
  match latitude, longitude with
  | some la, some lo => .ok ⟨some la, some lo⟩
  | _, _ =>
    match city_name with
    | some c =>
      if c = "" then .error "Provide either (latitude, longitude) or city_name."
      else .ok ⟨(geocode geoResp).1, (geocode geoResp).2⟩
    | none => .error "Provide either (latitude, longitude) or city_name."

/-- Embedding of `AgriGuard.get_ai_agri_advice` (`agriguard.py` lines
32–48).  `fetch` is the `fetch_forecast_metrics` outcome (`none` for
any exception during the primary fetch, which `weather.py` lines 65–66
collapse to `None`); the token variables and the model-call outcome are
passed through to `get_advice`.  Python tests `if api_error:` by
truthiness, so an empty error string falls through to the token hint. -/
def get_ai_agri_advice (lat lon : Option ℚ) (fetch : Option ForecastMetrics)
    (hfTok hubTok : Option String) (call : Except String (Option String)) :
    List String :=
  match lat with
  | none => ["Location Error"]
  | some _ =>
    match fetch with
    | none => ["⚠️ Forecast unavailable."]
    | some _ =>
      match get_advice hfTok hubTok call with
      | (some advice, _) => advice
      | (none, some err) =>
        if err = "" then
          ["⚠️ Set HF_TOKEN (or HUGGING_FACE_HUB_TOKEN) in .env or environment and retry."]
        else ["⚠️ AI advice unavailable: " ++ err]
      | (none, none) =>
        ["⚠️ Set HF_TOKEN (or HUGGING_FACE_HUB_TOKEN) in .env or environment and retry."]

/-! ### The rule-based advisory strategy -/

/-- Modelled from the spec: the rule-based advisory strategy of §4.4
("Rule-based (deterministic, no external call)"), which has no
implementation under `src/` — the repository only ships the model-based
path.  Faithful to the spec's words: one labeled line per threshold
crossed, in the fixed order heat stress (avg temperature > 32°C),
irrigation (min soil moisture present and < 0.15), flood/drainage risk
(total precipitation > 10mm); thresholds independent; a single
"stable conditions" line when none is crossed.  `min_soil` is optional,
as the spec requires irrigation advice only when the metric is
present. -/
def rule_based_lines (avg_temp : ℚ) (min_soil : Option ℚ) (total_rain : ℚ) :
    List String :=
  (if 32 < avg_temp then ["Heat: heat stress"] else []) ++
  (match min_soil with
    | some s => if s < 15 / 100 then ["Irrigation: low soil moisture"] else []
    | none => []) ++
  (if 10 < total_rain then ["Flood: drainage risk"] else [])

/-- Modelled from the spec (§4.4, continued): if no threshold is crossed,
emit a single "stable conditions" line, otherwise the triggered lines. -/
def rule_based_advice (avg_temp : ℚ) (min_soil : Option ℚ) (total_rain : ℚ) :
    List String :=
  if rule_based_lines avg_temp min_soil total_rain = [] then ["Stable conditions"]
  else rule_based_lines avg_temp min_soil total_rain

/-! ### outbound.py — bulk SMS -/

/-- The per-iteration records `SMSClient.send_bulk` appends to its
`results` list (`outbound.py` lines 21–29): every number is attempted;
a failing `send_sms` is caught and recorded as `(n, False, str(e))`, a
success as `(n, True, msg.sid)`.  `send` models the per-recipient
Twilio call outcome. -/
def send_bulk_results (send : String → Except String String)
    (numbers : List String) : List (String × Bool × String) :=
  numbers.map fun n =>
    match send n with
    | .ok sid => (n, true, sid)
    | .error e => (n, false, e)

/-- Embedding of `SMSClient.send_bulk` (`outbound.py` lines 19–29): the
loop builds `results`, but the function body ends without a `return`
statement, so the call returns Python `None` — modelled as `none`.  The
list the loop builds (and discards) is `send_bulk_results`. -/
def send_bulk (send : String → Except String String)
    (numbers : List String) : Option (List (String × Bool × String)) :=
  let _results := send_bulk_results send numbers
  none

/-! ## Theorems -/

/-! ### Reductions of `foldl min` / `foldl max` -/

theorem foldl_min_mem (xs : List ℚ) (x : ℚ) : xs.foldl min x ∈ x :: xs := by
  induction xs generalizing x with
  | nil => simp
  | cons a as ih =>
    rw [List.foldl_cons]
    rcases List.mem_cons.mp (ih (min x a)) with h | h
    · rcases min_choice x a with hm | hm
      · rw [h, hm]; exact List.mem_cons_self _ _
      · rw [h, hm]; exact List.mem_cons_of_mem _ (List.mem_cons_self _ _)
    · exact List.mem_cons_of_mem _ (List.mem_cons_of_mem _ h)

theorem foldl_min_le (xs : List ℚ) (x : ℚ) :
    xs.foldl min x ≤ x ∧ ∀ y ∈ xs, xs.foldl min x ≤ y := by
  induction xs generalizing x with
  | nil => exact ⟨le_refl x, by simp⟩
  | cons a as ih =>
    obtain ⟨h1, h2⟩ := ih (min x a)
    rw [List.foldl_cons]
    refine ⟨h1.trans (min_le_left _ _), ?_⟩
    intro y hy
    rcases List.mem_cons.mp hy with rfl | hy
    · exact h1.trans (min_le_right _ _)
    · exact h2 y hy

theorem foldl_max_mem (xs : List ℚ) (x : ℚ) : xs.foldl max x ∈ x :: xs := by
  induction xs generalizing x with
  | nil => simp
  | cons a as ih =>
    rw [List.foldl_cons]
    rcases List.mem_cons.mp (ih (max x a)) with h | h
    · rcases max_choice x a with hm | hm
      · rw [h, hm]; exact List.mem_cons_self _ _
      · rw [h, hm]; exact List.mem_cons_of_mem _ (List.mem_cons_self _ _)
    · exact List.mem_cons_of_mem _ (List.mem_cons_of_mem _ h)

theorem foldl_max_ge (xs : List ℚ) (x : ℚ) :
    x ≤ xs.foldl max x ∧ ∀ y ∈ xs, y ≤ xs.foldl max x := by
  induction xs generalizing x with
  | nil => exact ⟨le_refl x, by simp⟩
  | cons a as ih =>
    obtain ⟨h1, h2⟩ := ih (max x a)
    rw [List.foldl_cons]
    refine ⟨(le_max_left _ _).trans h1, ?_⟩
    intro y hy
    rcases List.mem_cons.mp hy with rfl | hy
    · exact (le_max_right _ _).trans h1
    · exact h2 y hy

theorem seriesMin_spec (l : List ℚ) (hl : l ≠ []) :
    seriesMin l ∈ l ∧ ∀ y ∈ l, seriesMin l ≤ y := by
  match l, hl with
  | x :: xs, _ =>
    refine ⟨foldl_min_mem xs x, ?_⟩
    intro y hy
    rcases List.mem_cons.mp hy with rfl | hy
    · exact (foldl_min_le xs y).1
    · exact (foldl_min_le xs x).2 y hy

theorem seriesMax_spec (l : List ℚ) (hl : l ≠ []) :
    seriesMax l ∈ l ∧ ∀ y ∈ l, y ≤ seriesMax l := by
  match l, hl with
  | x :: xs, _ =>
    refine ⟨foldl_max_mem xs x, ?_⟩
    intro y hy
    rcases List.mem_cons.mp hy with rfl | hy
    · exact (foldl_max_ge xs y).1
    · exact (foldl_max_ge xs x).2 y hy

/-! ### C1 -/

/-- C1: for every 24-sample hourly series, `fetch_forecast_metrics` derives
`avg_temp`, `min_temp` and `max_temp` equal to the arithmetic mean, minimum
and maximum of the temperature samples, and `total_rain` equal to the sum of
the precipitation samples, with `total_rain = 0.0` when the precipitation
series is absent from the response. -/
theorem C1_forecast_metric_derivations
    (temps precip : List ℚ) (soil : Option (List ℚ)) (sub : Option (List ℚ))
    (htemps : temps.length = 24) (hprecip : precip.length = 24) :
    (fetch_forecast_metrics ⟨temps, soil, some precip⟩ sub).avg_temp = temps.sum / 24 ∧
    (fetch_forecast_metrics ⟨temps, soil, some precip⟩ sub).min_temp ∈ temps ∧
    (∀ x ∈ temps, (fetch_forecast_metrics ⟨temps, soil, some precip⟩ sub).min_temp ≤ x) ∧
    (fetch_forecast_metrics ⟨temps, soil, some precip⟩ sub).max_temp ∈ temps ∧
    (∀ x ∈ temps, x ≤ (fetch_forecast_metrics ⟨temps, soil, some precip⟩ sub).max_temp) ∧
    (fetch_forecast_metrics ⟨temps, soil, some precip⟩ sub).total_rain = precip.sum ∧
    (fetch_forecast_metrics ⟨temps, soil, none⟩ sub).total_rain = 0 := by
  have hne : temps ≠ [] := by
    intro h; rw [h] at htemps; exact absurd htemps (by decide)
  obtain ⟨hmin_mem, hmin_le⟩ := seriesMin_spec temps hne
  obtain ⟨hmax_mem, hmax_ge⟩ := seriesMax_spec temps hne
  refine ⟨?_, hmin_mem, hmin_le, hmax_mem, hmax_ge, rfl, rfl⟩
  show seriesMean temps = temps.sum / 24
  rw [seriesMean, htemps]
  norm_num

/-- Witness for C1 at a concrete 24-sample response. -/
theorem C1_forecast_metric_derivations_witness :
    ((List.range 24).map (fun i => (i : ℚ))).length = 24 ∧
    (fetch_forecast_metrics ⟨(List.range 24).map (fun i => (i : ℚ)), none,
        some (List.replicate 24 (1 : ℚ))⟩ none).avg_temp =
      ((List.range 24).map (fun i => (i : ℚ))).sum / 24 := by
  have h := C1_forecast_metric_derivations
    ((List.range 24).map (fun i => (i : ℚ))) (List.replicate 24 (1 : ℚ))
    none none (by decide) (by decide)
  exact ⟨by decide, h.1⟩

/-! ### C2 -/

/-- C2: the next-hour rain metric is the sum of exactly the first 4
quarter-hour samples when at least 4 are present, `none` when fewer than 4
are present, and `none` on any failure of the sub-hourly fetch; the primary
`fetch_forecast_metrics` result is produced for every sub-hourly outcome,
with only the `rain_next_hour_mm` field depending on it. -/
theorem C2_rain_next_hour_spec
    (p q : List ℚ) (hp : 4 ≤ p.length) (hq : q.length < 4)
    (data : HourlyData) (sub sub' : Option (List ℚ)) :
    rain_next_hour (some p) = some ((p.take 4).sum) ∧
    rain_next_hour (some q) = none ∧
    rain_next_hour none = none ∧
    (fetch_forecast_metrics data sub).rain_next_hour_mm = rain_next_hour sub ∧
    (fetch_forecast_metrics data sub).avg_temp = (fetch_forecast_metrics data sub').avg_temp ∧
    (fetch_forecast_metrics data sub).min_temp = (fetch_forecast_metrics data sub').min_temp ∧
    (fetch_forecast_metrics data sub).max_temp = (fetch_forecast_metrics data sub').max_temp ∧
    (fetch_forecast_metrics data sub).total_rain = (fetch_forecast_metrics data sub').total_rain ∧
    (fetch_forecast_metrics data sub).min_soil = (fetch_forecast_metrics data sub').min_soil := by
  refine ⟨?_, ?_, rfl, rfl, rfl, rfl, rfl, rfl, rfl⟩
  · rw [rain_next_hour, if_pos hp]
  · rw [rain_next_hour, if_neg (by omega)]

/-- Witness for C2 at concrete sub-hourly series. -/
theorem C2_rain_next_hour_spec_witness :
    rain_next_hour (some [1, 2, 3, 4, 5]) = some 10 ∧
    rain_next_hour (some [1, 2]) = none := by
  have h := C2_rain_next_hour_spec [1, 2, 3, 4, 5] [1, 2] (by decide) (by decide)
    ⟨[], none, none⟩ none none
  refine ⟨?_, h.2.1⟩
  rw [h.1]
  norm_num

/-! ### C3 -/

/-- C3: when the soil-moisture series is absent from the forecast response,
the internal `min_soil_raw` is `None` — distinguishable from the value `0.0`
— while the `min_soil` field of the returned metrics is exactly `0.0`, and
the model-prompt line renders it as `0.00`. -/
theorem C3_min_soil_absent_unknown
    (temps : List ℚ) (precip : Option (List ℚ)) (sub : Option (List ℚ)) :
    min_soil_raw ⟨temps, none, precip⟩ = none ∧
    min_soil_raw ⟨temps, none, precip⟩ ≠ some 0 ∧
    (fetch_forecast_metrics ⟨temps, none, precip⟩ sub).min_soil = 0 ∧
    soil_prompt_line (fetch_forecast_metrics ⟨temps, none, precip⟩ sub) =
      "- Soil moisture (3–9 cm, 0–1 scale): 0.00 (low if <0.2, critical if <0.15)" := by
  refine ⟨rfl, by simp [min_soil_raw], rfl, ?_⟩
  show "- Soil moisture (3–9 cm, 0–1 scale): " ++ format2 0 ++
      " (low if <0.2, critical if <0.15)" = _
  norm_num [format2]
  rfl

/-- Witness for C3 at a concrete soil-less response. -/
theorem C3_min_soil_absent_unknown_witness :
    min_soil_raw ⟨[20], none, none⟩ = none ∧
    (fetch_forecast_metrics ⟨[20], none, none⟩ none).min_soil = 0 :=
  ⟨(C3_min_soil_absent_unknown [20] none none).1,
   (C3_min_soil_absent_unknown [20] none none).2.2.1⟩

/-! ### Reply parsing: structural lemmas -/

theorem pySpace_imp_bullet (c : Char) (h : isPySpace c = true) :
    isBulletChar c = true := by
  simp [isBulletChar, h]

theorem dropWhile_head_false (p : Char → Bool) (l : List Char) :
    l.dropWhile p = [] ∨ p ((l.dropWhile p).headD 'a') = false := by
  induction l with
  | nil => exact Or.inl rfl
  | cons a as ih =>
    by_cases h : p a = true
    · rw [List.dropWhile_cons, if_pos h]; exact ih
    · rw [List.dropWhile_cons, if_neg h]
      exact Or.inr (by simpa using h)

theorem rstrip_decomp (l : List Char) :
    ∃ post, l = rstripChars l ++ post ∧ ∀ c ∈ post, isPySpace c = true := by
  refine ⟨(l.reverse.takeWhile isPySpace).reverse, ?_, ?_⟩
  · conv_lhs => rw [← l.reverse_reverse,
      ← List.takeWhile_append_dropWhile (p := isPySpace) (l := l.reverse)]
    rw [List.reverse_append, rstripChars]
  · intro c hc
    exact List.mem_takeWhile_imp (List.mem_reverse.mp hc)

theorem dropWhile_space_id (ds : List Char)
    (h : ds = [] ∨ isBulletChar (ds.headD 'a') = false) :
    ds.dropWhile isPySpace = ds := by
  match ds with
  | [] => rfl
  | d :: ds' =>
    have hb : isBulletChar d = false := by
      rcases h with h | h
      · exact absurd h (by simp)
      · simpa using h
    have hps : isPySpace d = false := by
      rcases hps : isPySpace d with _ | _
      · rfl
      · exact absurd (pySpace_imp_bullet d hps) (by simp [hb])
    rw [List.dropWhile_cons, if_neg (by simp [hps])]

theorem strip_bullet_data (line : String) :
    (strip_bullet line).data = rstripChars (line.data.dropWhile isBulletChar) := by
  show (String.mk (pyStrip (line.data.dropWhile isBulletChar))).data = _
  rw [pyStrip, dropWhile_space_id _ (dropWhile_head_false isBulletChar line.data)]

theorem strip_bullet_decomp (line : String) :
    ∃ pre post, line.data = pre ++ (strip_bullet line).data ++ post ∧
      (∀ c ∈ pre, isBulletChar c = true) ∧ (∀ c ∈ post, isPySpace c = true) := by
  obtain ⟨post, hpost, hspace⟩ :=
    rstrip_decomp (line.data.dropWhile isBulletChar)
  refine ⟨line.data.takeWhile isBulletChar, post, ?_,
    fun c hc => List.mem_takeWhile_imp hc, hspace⟩
  calc line.data
      = line.data.takeWhile isBulletChar ++ line.data.dropWhile isBulletChar :=
        (List.takeWhile_append_dropWhile isBulletChar line.data).symm
    _ = line.data.takeWhile isBulletChar ++
          (rstripChars (line.data.dropWhile isBulletChar) ++ post) :=
        congrArg (line.data.takeWhile isBulletChar ++ ·) hpost
    _ = line.data.takeWhile isBulletChar ++ ((strip_bullet line).data ++ post) :=
        congrArg (fun x => line.data.takeWhile isBulletChar ++ (x ++ post))
          (strip_bullet_data line).symm
    _ = line.data.takeWhile isBulletChar ++ (strip_bullet line).data ++ post :=
        (List.append_assoc _ _ _).symm

theorem strip_bullet_head (line : String) :
    strip_bullet line = "" ∨
      isBulletChar ((strip_bullet line).data.headD 'a') = false := by
  have hh := dropWhile_head_false isBulletChar line.data
  obtain ⟨post, hpost, _⟩ := rstrip_decomp (line.data.dropWhile isBulletChar)
  cases hr : rstripChars (line.data.dropWhile isBulletChar) with
  | nil =>
    left
    have hdat : (strip_bullet line).data = [] := by rw [strip_bullet_data, hr]
    cases hsb : strip_bullet line with
    | mk l => rw [hsb] at hdat; simp only at hdat; rw [hdat]
  | cons a t =>
    right
    rw [strip_bullet_data, hr]
    rcases hh with h | h
    · rw [h] at hr
      exact absurd hr (by simp [rstripChars])
    · rw [hpost, hr] at h
      simpa using h

theorem parse_reply_lines (text : String) (l : String) (hl : l ∈ parse_reply text) :
    l ≠ "" ∧ isBulletChar (l.data.headD 'a') = false := by
  rw [parse_reply] at hl
  rw [List.mem_filter] at hl
  obtain ⟨hmem, hne⟩ := hl
  have hne' : l ≠ "" := by simpa using hne
  refine ⟨hne', ?_⟩
  rw [List.mem_map] at hmem
  obtain ⟨line, _, rfl⟩ := hmem
  rcases strip_bullet_head line with h | h
  · exact absurd h hne'
  · exact h

/-! ### C6 -/

/-- C6 counterexample: a leading opening parenthesis is not stripped — the
regex class contains only the closing parenthesis — so the line
"(1) Irrigate now" passes through the parser unchanged, while the
claimed stripping of "parentheses" would have normalized it to
"Irrigate now" (as happens for "1) Irrigate now"). -/
theorem C6_open_paren_not_stripped :
    parse_reply "(1) Irrigate now" = ["(1) Irrigate now"] ∧
    strip_bullet "(1) Irrigate now" = "(1) Irrigate now" ∧
    strip_bullet "1) Irrigate now" = "Irrigate now" := by
  refine ⟨by decide, by decide, by decide⟩

/-- C6 (amended): the parser splits the reply into non-empty lines, strips
from each line any leading run of whitespace, dashes, asterisks, bullet
glyphs, digits, periods and closing parentheses (the opening parenthesis is
not in the stripped class), and discards lines that become empty: each of
"1) Irrigate now", "- Irrigate now" and "• Irrigate now" normalizes to
"Irrigate now"; every parsed line is non-empty and starts with a character
outside the stripped class; and each line's text is its original text minus
a leading run of class characters and trailing whitespace. -/
theorem C6_reply_parsing :
    parse_reply "1) Irrigate now" = ["Irrigate now"] ∧
    parse_reply "- Irrigate now" = ["Irrigate now"] ∧
    parse_reply "• Irrigate now" = ["Irrigate now"] ∧
    parse_reply "1) Irrigate now\n- Irrigate now\n• Irrigate now" =
      ["Irrigate now", "Irrigate now", "Irrigate now"] ∧
    (∀ text : String, ∀ l ∈ parse_reply text,
      l ≠ "" ∧ isBulletChar (l.data.headD 'a') = false) ∧
    (∀ line : String, ∃ pre post,
      line.data = pre ++ (strip_bullet line).data ++ post ∧
      (∀ c ∈ pre, isBulletChar c = true) ∧ (∀ c ∈ post, isPySpace c = true)) :=
  ⟨by decide, by decide, by decide, by decide, parse_reply_lines, strip_bullet_decomp⟩

/-- Witness for C6 at a concrete parsed line. -/
theorem C6_reply_parsing_witness :
    "Irrigate now" ≠ "" ∧
    isBulletChar ("Irrigate now".data.headD 'a') = false :=
  C6_reply_parsing.2.2.2.2.1 "1) Irrigate now" "Irrigate now" (by decide)

/-! ### C5 -/

/-- C5: the four caller-visible outcomes of `get_advice`: no credential →
`(none, none)` and never an error string; credential present and failing
call → `(none, provider error text)`; successful call with empty or
unparseable reply → `(none, one of the two dedicated no-usable-content
messages)`; success → `(some advice, none)` with the parsed, non-empty
advice list. -/
theorem C5_get_advice_outcomes
    (hfTok hubTok : Option String) (call : Except String (Option String))
    (e text : String) :
    (token_truthy (hf_token hfTok hubTok) = false →
      get_advice hfTok hubTok call = (none, none)) ∧
    (token_truthy (hf_token hfTok hubTok) = true →
      get_advice hfTok hubTok (.error e) = (none, some e)) ∧
    (token_truthy (hf_token hfTok hubTok) = true →
      get_advice hfTok hubTok (.ok none) =
        (none, some "Model returned empty response")) ∧
    (token_truthy (hf_token hfTok hubTok) = true → parse_reply text = [] →
      (get_advice hfTok hubTok (.ok (some text)) =
          (none, some "Model returned empty response") ∨
        get_advice hfTok hubTok (.ok (some text)) =
          (none, some "Model returned no parseable advice"))) ∧
    (token_truthy (hf_token hfTok hubTok) = true → parse_reply text ≠ [] →
      get_advice hfTok hubTok (.ok (some text)) =
        (some (parse_reply text), none) ∧ parse_reply text ≠ []) := by
  refine ⟨?_, ?_, ?_, ?_, ?_⟩
  · intro h
    rw [get_advice.eq_def, if_pos h]
  · intro h
    rw [get_advice.eq_def, if_neg (by simp [h])]
  · intro h
    rw [get_advice.eq_def, if_neg (by simp [h])]
  · intro h hpr
    rw [get_advice.eq_def, if_neg (by simp [h])]
    by_cases ht : text = ""
    · left; simp [ht]
    · right; simp [ht, hpr]
  · intro h hpr
    have ht : ¬ text = "" := by
      intro ht; rw [ht] at hpr; exact hpr (by decide)
    rw [get_advice.eq_def, if_neg (by simp [h])]
    simp [ht, hpr]

/-- Witness for C5 at concrete credentials, error and replies. -/
theorem C5_get_advice_outcomes_witness :
    get_advice none (some "") (.error "boom") = (none, none) ∧
    get_advice (some "a-token") none (.error "boom") = (none, some "boom") ∧
    get_advice (some "a-token") none (.ok none) =
      (none, some "Model returned empty response") ∧
    (get_advice (some "a-token") none (.ok (some "- ")) =
        (none, some "Model returned empty response") ∨
      get_advice (some "a-token") none (.ok (some "- ")) =
        (none, some "Model returned no parseable advice")) ∧
    get_advice (some "a-token") none (.ok (some "1) Irrigate now")) =
      (some (parse_reply "1) Irrigate now"), none) := by
  have h1 := C5_get_advice_outcomes none (some "") (.error "boom") "boom" "x"
  have h2 := C5_get_advice_outcomes (some "a-token") none (.error "boom")
    "boom" "- "
  have h3 := C5_get_advice_outcomes (some "a-token") none (.error "boom")
    "boom" "1) Irrigate now"
  exact ⟨h1.1 (by decide), h2.2.1 (by decide), h2.2.2.1 (by decide),
    h2.2.2.2.1 (by decide) (by decide),
    (h3.2.2.2.2 (by decide) (by decide)).1⟩

/-! ### C4 -/

/-- C4: the rule-based advisory strategy (modelled from the spec, which is
its only source — no rule-based implementation ships under `src/`): avg
temperature 33, min soil 0.10, total rain 12 yields exactly the three lines
heat, irrigation, flood in that order; avg temperature 20, min soil 0.5,
total rain 2 yields exactly the single stable-conditions line; absent soil
moisture never triggers the irrigation line; and the output is never
empty. -/
theorem C4_rule_based_advice_thresholds :
    rule_based_advice 33 (some (10 / 100)) 12 =
      ["Heat: heat stress", "Irrigation: low soil moisture", "Flood: drainage risk"] ∧
    (rule_based_advice 33 (some (10 / 100)) 12).length = 3 ∧
    rule_based_advice 20 (some (5 / 10)) 2 = ["Stable conditions"] ∧
    rule_based_advice 20 none 2 = ["Stable conditions"] ∧
    (∀ a r, rule_based_advice a none r =
      rule_based_advice a (some (2 / 10)) r) ∧
    (∀ a s r, rule_based_advice a s r ≠ []) := by
  have h32 : (32 : ℚ) < 33 := by norm_num
  have h10 : (10 : ℚ) / 100 < 15 / 100 := by norm_num
  have h12 : (10 : ℚ) < 12 := by norm_num
  have n32 : ¬ ((32 : ℚ) < 20) := by norm_num
  have n05 : ¬ ((5 : ℚ) / 10 < 15 / 100) := by norm_num
  have n02 : ¬ ((10 : ℚ) < 2) := by norm_num
  have n20 : ¬ ((2 : ℚ) / 10 < 15 / 100) := by norm_num
  refine ⟨by simp [rule_based_advice, rule_based_lines, h32, h10, h12],
    by simp [rule_based_advice, rule_based_lines, h32, h10, h12],
    by simp [rule_based_advice, rule_based_lines, n32, n05, n02],
    by simp [rule_based_advice, rule_based_lines, n32, n02], ?_, ?_⟩
  · intro a r
    simp [rule_based_advice, rule_based_lines, n20]
  · intro a s r
    rw [rule_based_advice.eq_def]
    split
    · simp
    · assumption

/-- Witness for C4 at concrete metric combinations. -/
theorem C4_rule_based_advice_thresholds_witness :
    rule_based_advice 33 (some (10 / 100)) 12 =
      ["Heat: heat stress", "Irrigation: low soil moisture", "Flood: drainage risk"] ∧
    rule_based_advice 20 (some (5 / 10)) 2 = ["Stable conditions"] :=
  ⟨C4_rule_based_advice_thresholds.1, C4_rule_based_advice_thresholds.2.2.1⟩

/-! ### C7 -/

/-- C7 (code bug): with one failing and one succeeding recipient the loop of
`send_bulk` attempts both sends and builds the two per-recipient outcome
records — one failure, one success, the first recipient's failure not
preventing the second send — but the function returns Python `None`
(its body has no `return results`), so the records never reach the
caller. -/
theorem C7_send_bulk_missing_return :
    send_bulk_results
        (fun n => if n = "+111" then .error "boom" else .ok "SM123")
        ["+111", "+222"] =
      [("+111", false, "boom"), ("+222", true, "SM123")] ∧
    send_bulk
        (fun n => if n = "+111" then .error "boom" else .ok "SM123")
        ["+111", "+222"] = none :=
  ⟨by decide, rfl⟩

/-! ### C8 -/

/-- C8 counterexample: constructing `AgriGuard` with latitude 200 and
longitude 300 — far outside the documented ranges, since 90 < 200 and
180 < 300 — succeeds and stores the coordinates unchanged: the
constructor performs no range validation. -/
theorem C8_out_of_range_accepted :
    agriguard_init none (some 200) (some 300) (.ok []) =
      .ok ⟨some 200, some 300⟩ ∧
    (90 : ℚ) < 200 ∧ (180 : ℚ) < 300 :=
  ⟨rfl, by norm_num, by norm_num⟩

/-- C8 (amended): with explicit numeric coordinates the constructor passes
them through unchanged and makes no network call — the result is identical
for every geocoding outcome — but it performs no validation of the
documented latitude/longitude ranges. -/
theorem C8_explicit_coordinates_passthrough
    (city : Option String) (la lo : ℚ)
    (g g' : Except String (List (ℚ × ℚ))) :
    agriguard_init city (some la) (some lo) g = .ok ⟨some la, some lo⟩ ∧
    agriguard_init city (some la) (some lo) g =
      agriguard_init city (some la) (some lo) g' :=
  ⟨rfl, rfl⟩

/-! ### C9 -/

theorem get_advice_some_ne_nil (hfTok hubTok : Option String)
    (call : Except String (Option String)) (l : List String) (x : Option String)
    (h : get_advice hfTok hubTok call = (some l, x)) : l ≠ [] := by
  rw [get_advice.eq_def] at h
  split at h
  · simp at h
  · match call with
    | .error e => simp at h
    | .ok none => simp at h
    | .ok (some text) =>
      dsimp only at h
      split at h
      · simp at h
      · split at h
        · simp at h
        · next hne =>
          have hfst : parse_reply text = l := Option.some.inj (congrArg Prod.fst h)
          exact fun hnil => hne (hfst.trans hnil)

/-- C9: `get_ai_agri_advice` is total at its interface: for every reachable
state — any coordinate state, any primary-fetch outcome (all exceptions
collapsed to the single `none`), any credential configuration and any
model-call outcome — it returns a non-empty list of display lines, and
whenever coordinates are present but the primary fetch failed it returns
exactly the single "forecast unavailable" line, with no dependence on which
error occurred. -/
theorem C9_advice_pipeline_total
    (lat lon : Option ℚ) (fetch : Option ForecastMetrics)
    (hfTok hubTok : Option String) (call : Except String (Option String)) :
    get_ai_agri_advice lat lon fetch hfTok hubTok call ≠ [] ∧
    (∀ (la : ℚ) (lon' : Option ℚ) (h1 h2 : Option String)
      (c : Except String (Option String)),
      get_ai_agri_advice (some la) lon' none h1 h2 c =
        ["⚠️ Forecast unavailable."]) := by
  constructor
  · rcases lat with _ | la
    · simp [get_ai_agri_advice]
    · rcases fetch with _ | m
      · simp [get_ai_agri_advice]
      · rcases hga : get_advice hfTok hubTok call with ⟨fst, snd⟩
        rcases fst with _ | advice
        · rcases snd with _ | err
          · simp [get_ai_agri_advice, hga]
          · simp only [get_ai_agri_advice, hga]
            split <;> simp
        · simp only [get_ai_agri_advice, hga]
          exact get_advice_some_ne_nil hfTok hubTok call advice snd hga
  · intro la lon' h1 h2 c
    rfl

/-- Witness for C9 at a concrete failed fetch. -/
theorem C9_advice_pipeline_total_witness :
    get_ai_agri_advice (some 52) (some 13) none (some "a-token") none
      (.error "socket timeout") = ["⚠️ Forecast unavailable."] :=
  (C9_advice_pipeline_total (some 52) (some 13) none (some "a-token") none
    (.error "socket timeout")).2 52 (some 13) (some "a-token") none
    (.error "socket timeout")

/-! ### C10 -/

/-- C10: when geocoding fails — an API error or zero matches — `geocode`
returns `(None, None)`, the constructor does not raise and stores `None`
coordinates, and a subsequent `get_ai_agri_advice` returns exactly
`["Location Error"]` for every fetch, credential and model outcome, hence
without attempting any forecast fetch. -/
theorem C10_geocode_failure_flow
    (e city : String) (hcity : city ≠ "") :
    geocode (.error e) = (none, none) ∧
    geocode (.ok []) = (none, none) ∧
    agriguard_init (some city) none none (.error e) = .ok ⟨none, none⟩ ∧
    agriguard_init (some city) none none (.ok []) = .ok ⟨none, none⟩ ∧
    (∀ (lon : Option ℚ) (fetch : Option ForecastMetrics)
      (h1 h2 : Option String) (c : Except String (Option String)),
      get_ai_agri_advice none lon fetch h1 h2 c = ["Location Error"]) := by
  refine ⟨rfl, rfl, ?_, ?_, fun _ _ _ _ _ => rfl⟩
  · simp [agriguard_init, hcity, geocode]
  · simp [agriguard_init, hcity, geocode]

/-- Witness for C10 at a concrete failed geocoding. -/
theorem C10_geocode_failure_flow_witness :
    agriguard_init (some "Lodwar") none none (.error "boom") =
      .ok ⟨none, none⟩ ∧
    get_ai_agri_advice none none none none none (.error "boom") =
      ["Location Error"] :=
  ⟨(C10_geocode_failure_flow "boom" "Lodwar" (by decide)).2.2.1,
   (C10_geocode_failure_flow "boom" "Lodwar" (by decide)).2.2.2.2 none none
     none none (.error "boom")⟩
